import Mathlib

/-!
Verification of the query classifier (`determine_query_type` in
`data_science/agent.py`) and the retrieval-result normalizer
(`format_retrieval_results` in `data_science/sub_agents/retrieval/agent.py`).

The Python code is shallowly embedded: strings are Lean `String`s, Python
`needle in hay` substring tests become infix tests on the underlying
character lists, Python values (`Any`) become the inductive `PyVal`, a
Python `Dict[str, Any]` becomes an association list, and steps of the
normalizer that can raise a `TypeError` / `KeyError` in Python are modelled
in the `Option` monad, with the surrounding `try/except` as the final
`Option` elimination.
-/

/-- Model of Python `str.lower()` (the source only ever compares against
ASCII keywords; `Char.toLower` lower-cases exactly the basic latin range). -/
def strLower (s : String) : String := String.mk (s.toList.map Char.toLower)

/-- Model of Python `needle in hay`: substring containment. -/
def strContains (hay needle : String) : Bool := decide (needle.toList <:+: hay.toList)

/-- Model of Python `s[:n]`: the first `n` characters of `s`. -/
def strTake (s : String) (n : Nat) : String := String.mk (s.toList.take n)

/-- The `analysis_keywords` list of `determine_query_type`
(`data_science/agent.py`, including the duplicated `insight` entry). -/
def analysis_keywords : List String :=
  ["analyze", "analysis", "trend", "pattern", "insight",
   "visualize", "chart", "graph", "plot", "compare",
   "correlation", "statistic", "average",
   "insight", "identify",
   "relationship", "predict", "forecast"]

/-- The `retrieval_keywords` list of `determine_query_type`. -/
def retrieval_keywords : List String :=
  ["list", "show", "get", "fetch", "retrieve", "data",
   "tables", "schema", "metadata", "records", "rows",
   "columns", "structure", "describe"]

/-- The narrow data-context word list of the fallback branch of
`determine_query_type`. -/
def context_words : List String := ["data", "table", "database", "sales", "customer"]

/-- `has_analysis` of `determine_query_type`: some analysis keyword occurs in
the lower-cased query. -/
def has_analysis (query : String) : Bool :=
  analysis_keywords.any (fun kw => strContains (strLower query) kw)

/-- `has_retrieval` of `determine_query_type`: some retrieval keyword occurs
in the lower-cased query. -/
def has_retrieval (query : String) : Bool :=
  retrieval_keywords.any (fun kw => strContains (strLower query) kw)

/-- The fallback test of `determine_query_type`: some narrow data-context
word occurs in the lower-cased query. -/
def has_context (query : String) : Bool :=
  context_words.any (fun w => strContains (strLower query) w)

/-- `determine_query_type` (`data_science/agent.py`). -/
def determine_query_type (query : String) : String :=
  if has_analysis query && has_retrieval query then "analysis"
  else if has_analysis query then "analysis"
  else if has_retrieval query then "retrieval"
  else if has_context query then "retrieval"
  else "analysis"

/-- Variant of `determine_query_type` whose fallback word list omits
`data` and `database` (stated by the claim as equivalent, because any query
containing either already matches the retrieval keyword `data`). -/
def determine_query_type_variant (query : String) : String :=
  if has_analysis query && has_retrieval query then "analysis"
  else if has_analysis query then "analysis"
  else if has_retrieval query then "retrieval"
  else if ["table", "sales", "customer"].any
      (fun w => strContains (strLower query) w) then "retrieval"
  else "analysis"

/-- Model of a Python value (`Any`), as far as the normalizer inspects it.
Dictionary keys are strings, matching the `Dict[str, Any]` input type. -/
inductive PyVal where
  | none
  | bool (b : Bool)
  | int (n : Int)
  | str (s : String)
  | list (xs : List PyVal)
  | dict (entries : List (String × PyVal))

/-- A Python `Dict[str, Any]`: an association list with string keys. -/
abbrev PyDict := List (String × PyVal)

/-- A single-quote character, used by Python `repr` of strings. -/
def pyQuote : String := String.singleton (Char.ofNat 39)

mutual

/-- Model of Python `repr`. Containers render their elements with `repr`;
escape sequences inside strings are not modelled. -/
def pyRepr : PyVal → String
  | .none => "None"
  | .bool true => "True"
  | .bool false => "False"
  | .int n => toString n
  | .str s => pyQuote ++ s ++ pyQuote
  | .list xs => "[" ++ pyReprList xs ++ "]"
  | .dict kvs => "\x7b" ++ pyReprEntries kvs ++ "\x7d"

/-- Comma-separated `repr`s of list elements. -/
def pyReprList : List PyVal → String
  | [] => ""
  | [x] => pyRepr x
  | x :: y :: rest => pyRepr x ++ ", " ++ pyReprList (y :: rest)

/-- Comma-separated `key: value` renderings of dict entries. -/
def pyReprEntries : List (String × PyVal) → String
  | [] => ""
  | [(k, v)] => pyQuote ++ k ++ pyQuote ++ ": " ++ pyRepr v
  | (k, v) :: e :: rest => pyQuote ++ k ++ pyQuote ++ ": " ++ pyRepr v ++ ", " ++ pyReprEntries (e :: rest)

end

/-- Model of Python `str()`: identity on strings, `repr` elsewhere. -/
def pyStr : PyVal → String
  | .str s => s
  | v => pyRepr v

/-- Model of Python `d[k]` / `k in d` on a string-keyed dict. -/
def dictGet (d : PyDict) (k : String) : Option PyVal :=
  (d.find? (fun e => e.1 == k)).map (fun e => e.2)

/-- Model of Python dict construction: inserting an existing key overwrites
its value in place, a new key is appended (insertion order). -/
def dictInsert (d : PyDict) (k : String) (v : PyVal) : PyDict :=
  if d.any (fun e => e.1 == k) then d.map (fun e => if e.1 == k then (k, v) else e)
  else d ++ [(k, v)]

/-- Model of Python `dict(pairs)`. -/
def dictOfPairs (ps : List (String × PyVal)) : PyDict :=
  ps.foldl (fun d kv => dictInsert d kv.1 kv.2) []

/-- Model of Python `len()`: defined on sized values, a `TypeError`
(`Option.none`) otherwise. -/
def pyLen : PyVal → Option Nat
  | .list xs => some xs.length
  | .str s => some s.length
  | .dict kvs => some kvs.length
  | _ => Option.none

/-- The string elements of a list of values; `Option.none` as soon as one
element is not a string (Python `str.join` raises a `TypeError` there). -/
def strElems : List PyVal → Option (List String)
  | [] => some []
  | v :: rest =>
    match v with
    | .str s => (strElems rest).map (fun l => s :: l)
    | _ => Option.none

/-- The sequence of strings Python `", ".join(columns)` iterates over:
string elements of a list, the characters of a string, the keys of a dict;
a `TypeError` (`Option.none`) otherwise. -/
def asStrList : PyVal → Option (List String)
  | .list xs => strElems xs
  | .str s => some (s.toList.map (fun c => String.singleton c))
  | .dict kvs => some (kvs.map (fun e => e.1))
  | _ => Option.none

/-- Model of Python `rows[i]` for an integer index: list and string indexing
succeed below the length; everything else raises (string-keyed dicts have
no integer keys). -/
def pyIndex : PyVal → Nat → Option PyVal
  | .list xs, i => xs.get? i
  | .str s, i => (s.toList.get? i).map (fun c => .str (String.singleton c))
  | _, _ => Option.none

/-- Model of Python iteration over a value (as consumed by `zip`): list
elements, characters of a string, keys of a dict; `TypeError` otherwise. -/
def pyIter : PyVal → Option (List PyVal)
  | .list xs => some xs
  | .str s => some (s.toList.map (fun c => .str (String.singleton c)))
  | .dict kvs => some (kvs.map (fun e => .str e.1))
  | _ => Option.none

/-- The first `k` sample rows `rows[0] .. rows[k-1]`, each forced to an
iterable, as in the sample loop of `format_retrieval_results`. -/
def getSampleRows (rows : PyVal) : Nat → Option (List (List PyVal))
  | 0 => some []
  | k + 1 =>
    match getSampleRows rows k, pyIndex rows k with
    | some rest, some v =>
      match pyIter v with
      | some elems => some (rest ++ [elems])
      | Option.none => Option.none
    | _, _ => Option.none

/-- Model of Python `sep.join(items)`. -/
def joinSep (sep : String) : List String → String
  | [] => ""
  | [x] => x
  | x :: y :: rest => x ++ sep ++ joinSep sep (y :: rest)

/-- Concatenation of a list of strings. -/
def concatList : List String → String
  | [] => ""
  | x :: rest => x ++ concatList rest

/-- One sample line `Row {i+1}: {dict(zip(columns, rows[i]))}\n`. -/
def sampleLine (colStrs : List String) (i : Nat) (row : List PyVal) : String :=
  "Row " ++ toString (i + 1) ++ ": " ++ pyRepr (.dict (dictOfPairs (colStrs.zip row))) ++ "\n"

/-- The sample lines for consecutive indices starting at `i`. -/
def sampleLinesFrom (colStrs : List String) : Nat → List (List PyVal) → List String
  | _, [] => []
  | i, r :: rest => sampleLine colStrs i r :: sampleLinesFrom colStrs (i + 1) rest

/-- All sample lines of the tabular raw preview. -/
def tabularSampleLines (colStrs : List String) (samples : List (List PyVal)) : List String :=
  sampleLinesFrom colStrs 0 samples

/-- The raw text of the tabular branch of `format_retrieval_results`. -/
def tabularRaw (colStrs : List String) (rc cc : Nat) (samples : List (List PyVal)) : String :=
  "Retrieved " ++ toString rc ++ " rows with " ++ toString cc ++ " columns\n" ++
  "Columns: " ++ joinSep ", " colStrs ++ "\n\n" ++
  "Sample rows (" ++ toString (min 5 rc) ++ " of " ++ toString rc ++ "):\n" ++
  concatList (tabularSampleLines colStrs samples)

/-- The structured value of the tabular branch. -/
def tabularStructured (columns rows : PyVal) (rc cc : Nat) : PyVal :=
  .dict [("type", .str "table"), ("headers", columns), ("rows", rows),
         ("row_count", .int (Int.ofNat rc)), ("column_count", .int (Int.ofNat cc))]

/-- The structured value of the generic-data branch. -/
def jsonStructured (d : PyVal) : PyVal :=
  .dict [("type", .str "json"), ("data", d)]

/-- The two parallel views returned by `format_retrieval_results`. -/
structure FormatOutput where
  structured : Option PyVal
  raw : String

/-- The `try` block of `format_retrieval_results`
(`data_science/sub_agents/retrieval/agent.py`): `Option.none` models a
raised exception. -/
def format_body (results : PyDict) : Option FormatOutput :=
  if (dictGet results "rows").isSome && (dictGet results "columns").isSome then
    (dictGet results "columns").bind fun columns =>
    (dictGet results "rows").bind fun rows =>
    (pyLen rows).bind fun rc =>
    (pyLen columns).bind fun cc =>
    (asStrList columns).bind fun colStrs =>
    (getSampleRows rows (min 5 rc)).bind fun samples =>
    some ⟨some (tabularStructured columns rows rc cc), tabularRaw colStrs rc cc samples⟩
  else if (dictGet results "data").isSome then
    (dictGet results "data").bind fun d =>
    some ⟨some (jsonStructured d), strTake (pyStr d) 2000⟩
  else
    some ⟨Option.none, strTake (pyStr (.dict results)) 1000⟩

/-- `format_retrieval_results`: the `try` block, with the `except` handler
returning `structured = None` and `raw = str(results)`. -/
def format_retrieval_results (results : PyDict) : FormatOutput :=
  match format_body results with
  | some out => out
  | Option.none => ⟨Option.none, pyStr (.dict results)⟩
/-- A 3000-character string, matching the truncation example of the spec. -/
def bigStr : String := String.mk (List.replicate 3000 'a')

theorem strContains_iff {hay needle : String} :
    strContains hay needle = true ↔ needle.toList <:+: hay.toList := by
  simp [strContains]

theorem char_toLower_idem (c : Char) : c.toLower.toLower = c.toLower := by
  simp only [Char.toLower]
  by_cases h : c.toNat ≥ 65 ∧ c.toNat ≤ 90
  · rw [if_pos h]
    have hvalid : (c.toNat + 32).isValidChar := Or.inl (by omega)
    have ht : (Char.ofNat (c.toNat + 32)).toNat = c.toNat + 32 := by
      rw [Char.ofNat, dif_pos hvalid]; rfl
    have hne : ¬((Char.ofNat (c.toNat + 32)).toNat ≥ 65 ∧ (Char.ofNat (c.toNat + 32)).toNat ≤ 90) := by
      rw [ht]; omega
    rw [if_neg hne]
  · rw [if_neg h, if_neg h]

theorem strLower_idem (s : String) : strLower (strLower s) = strLower s := by
  unfold strLower
  have hmk : (String.mk (s.toList.map Char.toLower)).toList = s.toList.map Char.toLower := rfl
  rw [hmk, List.map_map]
  congr 1
  induction s.toList with
  | nil => rfl
  | cons c cs ih => simp [Function.comp, char_toLower_idem, ih]

theorem has_analysis_strLower (q : String) : has_analysis (strLower q) = has_analysis q := by
  unfold has_analysis; rw [strLower_idem]

theorem has_retrieval_strLower (q : String) : has_retrieval (strLower q) = has_retrieval q := by
  unfold has_retrieval; rw [strLower_idem]

theorem has_context_strLower (q : String) : has_context (strLower q) = has_context q := by
  unfold has_context; rw [strLower_idem]

/-- C1: whenever at least one of the two keyword sets matches, a match of
any analysis keyword forces the result `"analysis"` (even when retrieval
keywords also match), and a match of only retrieval keywords forces
`"retrieval"`. -/
theorem determine_query_type_priority (q : String) :
    (has_analysis q = true → determine_query_type q = "analysis") ∧
    (has_analysis q = false → has_retrieval q = true →
      determine_query_type q = "retrieval") := by
  constructor
  · intro ha
    unfold determine_query_type
    rcases hr : has_retrieval q <;> simp [ha, hr]
  · intro ha hr
    unfold determine_query_type
    simp [ha, hr]

theorem determine_query_type_priority_witness :
    (has_analysis "analyze the data" = true ∧
      determine_query_type "analyze the data" = "analysis") ∧
    (has_analysis "show tables" = false ∧ has_retrieval "show tables" = true ∧
      determine_query_type "show tables" = "retrieval") :=
  ⟨⟨by decide, (determine_query_type_priority "analyze the data").1 (by decide)⟩,
   ⟨by decide, by decide,
    (determine_query_type_priority "show tables").2 (by decide) (by decide)⟩⟩

/-- C2: `determine_query_type` is total; whenever neither keyword set
matches, the narrow data-context fallback decides the result (`"retrieval"`
when one of `data, table, database, sales, customer` occurs in the
lower-cased query, `"analysis"` otherwise), and the empty string yields
`"analysis"`. -/
theorem determine_query_type_fallback (q : String) :
    (has_analysis q = false → has_retrieval q = false →
      determine_query_type q =
        (if has_context q then "retrieval" else "analysis")) ∧
    determine_query_type "" = "analysis" := by
  refine ⟨fun ha hr => ?_, by decide⟩
  unfold determine_query_type
  simp [ha, hr]

theorem determine_query_type_fallback_witness :
    (has_analysis "the sales report" = false ∧
      has_retrieval "the sales report" = false ∧
      determine_query_type "the sales report" = "retrieval") ∧
    (has_analysis "hello world" = false ∧
      has_retrieval "hello world" = false ∧
      determine_query_type "hello world" = "analysis") :=
  ⟨⟨by decide, by decide,
    ((determine_query_type_fallback "the sales report").1 (by decide)
      (by decide)).trans (by decide)⟩,
   ⟨by decide, by decide,
    ((determine_query_type_fallback "hello world").1 (by decide)
      (by decide)).trans (by decide)⟩⟩

/-- C8: `determine_query_type` is case-insensitive (it agrees with itself on
the lower-cased query), and keyword matching is substring containment: a
query whose lower-cased form contains `"database"` counts as a
retrieval-keyword hit (via the keyword `"data"`). -/
theorem determine_query_type_case_insensitive :
    (∀ q : String, determine_query_type q = determine_query_type (strLower q)) ∧
    (∀ q : String, strContains (strLower q) "database" = true →
      has_retrieval q = true) := by
  constructor
  · intro q
    unfold determine_query_type
    rw [has_analysis_strLower, has_retrieval_strLower, has_context_strLower]
  · intro q h
    have hdata : strContains (strLower q) "data" = true := by
      rw [strContains_iff] at h ⊢
      exact List.IsInfix.trans (by decide) h
    unfold has_retrieval retrieval_keywords
    simp only [List.any_cons, Bool.or_eq_true]
    tauto

theorem determine_query_type_case_insensitive_witness :
    (determine_query_type "Show TABLES" = determine_query_type (strLower "Show TABLES")) ∧
    (strContains (strLower "my DataBase stuff") "database" = true ∧
      has_retrieval "my DataBase stuff" = true) :=
  ⟨determine_query_type_case_insensitive.1 "Show TABLES",
   by decide, determine_query_type_case_insensitive.2 "my DataBase stuff" (by decide)⟩

theorem not_has_retrieval_no_data {q : String} (h : has_retrieval q = false) :
    strContains (strLower q) "data" = false := by
  by_contra hc
  have hd : strContains (strLower q) "data" = true := by
    revert hc; cases strContains (strLower q) "data" <;> simp
  have : has_retrieval q = true := by
    unfold has_retrieval retrieval_keywords
    simp only [List.any_cons, Bool.or_eq_true]
    tauto
  rw [h] at this
  exact Bool.false_ne_true this

theorem not_has_retrieval_no_database {q : String} (h : has_retrieval q = false) :
    strContains (strLower q) "database" = false := by
  by_contra hc
  have hdb : strContains (strLower q) "database" = true := by
    revert hc; cases strContains (strLower q) "database" <;> simp
  have hdata : strContains (strLower q) "data" = true := by
    rw [strContains_iff] at hdb ⊢
    exact List.IsInfix.trans (by decide) hdb
  rw [not_has_retrieval_no_data h] at hdata
  exact Bool.false_ne_true hdata

/-- C10: the words `data` and `database` in the fallback word list are
unreachable: `determine_query_type` agrees everywhere with the variant
whose fallback list is only `table, sales, customer`. -/
theorem determine_query_type_eq_variant (q : String) :
    determine_query_type q = determine_query_type_variant q := by
  unfold determine_query_type determine_query_type_variant
  rcases ha : has_analysis q <;> rcases hr : has_retrieval q <;> simp [ha, hr]
  have hd := not_has_retrieval_no_data hr
  have hdb := not_has_retrieval_no_database hr
  unfold has_context context_words
  simp [List.any_cons, List.any_nil, hd, hdb, Bool.or_eq_true]

theorem strTake_length (s : String) (n : Nat) : (strTake s n).length = min n s.length := by
  show (s.toList.take n).length = min n s.length
  rw [List.length_take]
  rfl

theorem strLen_append (a b : String) : (a ++ b).length = a.length + b.length := by
  show (a.data ++ b.data).length = a.data.length + b.data.length
  exact List.length_append a.data b.data

theorem strElems_map_str (l : List String) : strElems (l.map PyVal.str) = some l := by
  induction l with
  | nil => rfl
  | cons s rest ih => simp [strElems, ih]

theorem take_min_five {α : Type} (l : List α) : l.take (min 5 l.length) = l.take 5 := by
  rcases Nat.le_total 5 l.length with h | h
  · rw [Nat.min_eq_left h]
  · rw [Nat.min_eq_right h, List.take_of_length_le (Nat.le_refl _), List.take_of_length_le h]

theorem getSampleRows_map_list (rowLists : List (List PyVal)) (k : Nat)
    (hk : k ≤ rowLists.length) :
    getSampleRows (PyVal.list (rowLists.map PyVal.list)) k = some (rowLists.take k) := by
  induction k with
  | zero => simp [getSampleRows]
  | succ k ih =>
    have hk' : k ≤ rowLists.length := Nat.le_of_succ_le hk
    have hklt : k < rowLists.length := hk
    have hidx : pyIndex (PyVal.list (rowLists.map PyVal.list)) k = some (PyVal.list rowLists[k]) := by
      show (rowLists.map PyVal.list).get? k = some (PyVal.list rowLists[k])
      rw [List.get?_eq_getElem?, List.getElem?_map, List.getElem?_eq_getElem hklt]
      rfl
    rw [getSampleRows, ih hk', hidx]
    show some (rowLists.take k ++ [rowLists[k]]) = some (rowLists.take (k + 1))
    rw [List.take_succ, List.getElem?_eq_getElem hklt]
    rfl

theorem sampleLinesFrom_length (c : List String) (i : Nat) (s : List (List PyVal)) :
    (sampleLinesFrom c i s).length = s.length := by
  induction s generalizing i with
  | nil => rfl
  | cons r rest ih => simp [sampleLinesFrom, ih]

set_option maxRecDepth 4000 in
theorem format_body_tabular (results : PyDict) (colStrs : List String)
    (rowLists : List (List PyVal))
    (h1 : dictGet results "columns" = some (PyVal.list (colStrs.map PyVal.str)))
    (h2 : dictGet results "rows" = some (PyVal.list (rowLists.map PyVal.list))) :
    format_body results = some
      ⟨some (tabularStructured (PyVal.list (colStrs.map PyVal.str))
          (PyVal.list (rowLists.map PyVal.list)) rowLists.length colStrs.length),
        tabularRaw colStrs rowLists.length colStrs.length (rowLists.take 5)⟩ := by
  have hcond : ((dictGet results "rows").isSome && (dictGet results "columns").isSome) = true := by
    rw [h1, h2]; rfl
  have hmin : min 5 rowLists.length ≤ rowLists.length := Nat.min_le_right _ _
  have hsamples := getSampleRows_map_list rowLists (min 5 rowLists.length) hmin
  have hlenr : pyLen (PyVal.list (rowLists.map PyVal.list)) = some rowLists.length := by
    simp [pyLen]
  have hlenc : pyLen (PyVal.list (colStrs.map PyVal.str)) = some colStrs.length := by
    simp [pyLen]
  have hcols : asStrList (PyVal.list (colStrs.map PyVal.str)) = some colStrs := by
    simp [asStrList, strElems_map_str]
  rw [format_body, if_pos hcond]
  simp only [h1, h2, hlenr, hlenc, hcols, hsamples, take_min_five, Option.some_bind]

/-- C3 (amended): for every input mapping whose `columns` value is a list of
strings and whose `rows` value is a list of lists, the result has
`structured` = the table record with `headers` = the columns value,
`rows` = the rows value verbatim, `row_count` = the number of rows and
`column_count` = the number of columns, and `raw` = the preview that begins
`Retrieved {row_count} rows with {column_count} columns`, lists the
comma-joined column names, and contains exactly `min 5 row_count` sample-row
lines. -/
theorem format_tabular_wellformed (results : PyDict) (colStrs : List String)
    (rowLists : List (List PyVal))
    (h1 : dictGet results "columns" = some (PyVal.list (colStrs.map PyVal.str)))
    (h2 : dictGet results "rows" = some (PyVal.list (rowLists.map PyVal.list))) :
    format_retrieval_results results =
      ⟨some (tabularStructured (PyVal.list (colStrs.map PyVal.str))
          (PyVal.list (rowLists.map PyVal.list)) rowLists.length colStrs.length),
        tabularRaw colStrs rowLists.length colStrs.length (rowLists.take 5)⟩ ∧
    (tabularSampleLines colStrs (rowLists.take 5)).length = min 5 rowLists.length := by
  constructor
  · rw [format_retrieval_results, format_body_tabular results colStrs rowLists h1 h2]
  · rw [tabularSampleLines, sampleLinesFrom_length, List.length_take]

theorem format_tabular_wellformed_witness :
    dictGet [("columns", PyVal.list [PyVal.str "id", PyVal.str "name"]),
        ("rows", PyVal.list [PyVal.list [PyVal.int 1, PyVal.str "a"],
          PyVal.list [PyVal.int 2, PyVal.str "b"]])] "columns" =
      some (PyVal.list (["id", "name"].map PyVal.str)) ∧
    dictGet [("columns", PyVal.list [PyVal.str "id", PyVal.str "name"]),
        ("rows", PyVal.list [PyVal.list [PyVal.int 1, PyVal.str "a"],
          PyVal.list [PyVal.int 2, PyVal.str "b"]])] "rows" =
      some (PyVal.list ([[PyVal.int 1, PyVal.str "a"],
        [PyVal.int 2, PyVal.str "b"]].map PyVal.list)) ∧
    format_retrieval_results [("columns", PyVal.list [PyVal.str "id", PyVal.str "name"]),
        ("rows", PyVal.list [PyVal.list [PyVal.int 1, PyVal.str "a"],
          PyVal.list [PyVal.int 2, PyVal.str "b"]])] =
      ⟨some (tabularStructured (PyVal.list (["id", "name"].map PyVal.str))
          (PyVal.list ([[PyVal.int 1, PyVal.str "a"],
            [PyVal.int 2, PyVal.str "b"]].map PyVal.list)) 2 2),
        tabularRaw ["id", "name"] 2 2
          [[PyVal.int 1, PyVal.str "a"], [PyVal.int 2, PyVal.str "b"]]⟩ :=
  ⟨rfl, rfl,
    (format_tabular_wellformed
      [("columns", PyVal.list [PyVal.str "id", PyVal.str "name"]),
        ("rows", PyVal.list [PyVal.list [PyVal.int 1, PyVal.str "a"],
          PyVal.list [PyVal.int 2, PyVal.str "b"]])]
      ["id", "name"]
      [[PyVal.int 1, PyVal.str "a"], [PyVal.int 2, PyVal.str "b"]] rfl rfl).1⟩

/-- C3 (counterexample to the unamended claim): the mapping
`{"columns": 1, "rows": 2}` contains both keys, yet the code raises at
`len(rows)` and the handler returns `structured = None` instead of a table
record. -/
theorem format_tabular_illtyped :
    (format_retrieval_results [("columns", PyVal.int 1), ("rows", PyVal.int 2)]).structured =
      Option.none ∧
    (format_retrieval_results [("columns", PyVal.int 1), ("rows", PyVal.int 2)]).raw =
      pyStr (PyVal.dict [("columns", PyVal.int 1), ("rows", PyVal.int 2)]) :=
  ⟨rfl, rfl⟩

theorem format_body_generic (results : PyDict) (d : PyVal)
    (h1 : ((dictGet results "rows").isSome && (dictGet results "columns").isSome) = false)
    (h2 : dictGet results "data" = some d) :
    format_body results = some ⟨some (jsonStructured d), strTake (pyStr d) 2000⟩ := by
  have hnc : ¬(((dictGet results "rows").isSome && (dictGet results "columns").isSome) = true) := by
    simp [h1]
  have hd : (dictGet results "data").isSome = true := by rw [h2]; rfl
  rw [format_body, if_neg hnc, if_pos hd, h2, Option.some_bind]

/-- C4: for every input mapping with a `data` key that does not match the
tabular shape, `structured` wraps the `data` value verbatim in the json
record and `raw` is the string rendering of that value cut off hard at 2000
characters (so a rendering of length at least 2000 gives `raw` of length
exactly 2000). -/
theorem format_generic_json (results : PyDict) (d : PyVal)
    (h1 : ((dictGet results "rows").isSome && (dictGet results "columns").isSome) = false)
    (h2 : dictGet results "data" = some d) :
    format_retrieval_results results =
      ⟨some (jsonStructured d), strTake (pyStr d) 2000⟩ ∧
    (format_retrieval_results results).raw.length = min 2000 (pyStr d).length ∧
    (2000 ≤ (pyStr d).length → (format_retrieval_results results).raw.length = 2000) := by
  have hf : format_retrieval_results results =
      ⟨some (jsonStructured d), strTake (pyStr d) 2000⟩ := by
    rw [format_retrieval_results, format_body_generic results d h1 h2]
  refine ⟨hf, ?_, fun h => ?_⟩
  · rw [hf]; exact strTake_length _ _
  · rw [hf]
    show (strTake (pyStr d) 2000).length = 2000
    rw [strTake_length]
    exact Nat.min_eq_left h

theorem format_generic_json_witness :
    (((dictGet [("data", PyVal.str bigStr)] "rows").isSome &&
        (dictGet [("data", PyVal.str bigStr)] "columns").isSome) = false) ∧
    dictGet [("data", PyVal.str bigStr)] "data" = some (PyVal.str bigStr) ∧
    2000 ≤ (pyStr (PyVal.str bigStr)).length ∧
    (format_retrieval_results [("data", PyVal.str bigStr)]).raw.length = 2000 := by
  have hlen : (pyStr (PyVal.str bigStr)).length = 3000 := by
    show (List.replicate 3000 'a').length = 3000
    rw [List.length_replicate]
  exact ⟨rfl, rfl, by rw [hlen]; omega,
    (format_generic_json [("data", PyVal.str bigStr)] (PyVal.str bigStr) rfl rfl).2.2
      (by rw [hlen]; omega)⟩

/-- C5: `format_retrieval_results` is total, and whenever its body raises
(the body yields `Option.none`), the result is `structured = None` with
`raw` = the string rendering of the original input. -/
theorem format_never_raises (results : PyDict) :
    (∃ out : FormatOutput, format_retrieval_results results = out) ∧
    (format_body results = Option.none →
      format_retrieval_results results = ⟨Option.none, pyStr (PyVal.dict results)⟩) := by
  refine ⟨⟨format_retrieval_results results, rfl⟩, fun h => ?_⟩
  rw [format_retrieval_results, h]

theorem format_never_raises_witness :
    format_body [("rows", PyVal.int 0), ("columns", PyVal.int 0)] = Option.none ∧
    format_retrieval_results [("rows", PyVal.int 0), ("columns", PyVal.int 0)] =
      ⟨Option.none, pyStr (PyVal.dict [("rows", PyVal.int 0), ("columns", PyVal.int 0)])⟩ :=
  ⟨rfl, (format_never_raises [("rows", PyVal.int 0), ("columns", PyVal.int 0)]).2 rfl⟩

/-- C6 (counterexample to the unamended claim): no fixed finite bound covers
the length of `raw` over all inputs — the tabular branch concatenates the
column names without truncation. -/
theorem format_raw_unbounded :
    ¬ ∃ B : Nat, ∀ results : PyDict, (format_retrieval_results results).raw.length ≤ B := by
  rintro ⟨B, hB⟩
  have hs : (String.mk (List.replicate (B + 1) 'a')).length = B + 1 := by
    show (List.replicate (B + 1) 'a').length = B + 1
    rw [List.length_replicate]
  have h := hB [("rows", PyVal.list []),
    ("columns", PyVal.list [PyVal.str (String.mk (List.replicate (B + 1) 'a'))])]
  rw [format_retrieval_results,
    format_body_tabular
      [("rows", PyVal.list []),
        ("columns", PyVal.list [PyVal.str (String.mk (List.replicate (B + 1) 'a'))])]
      [String.mk (List.replicate (B + 1) 'a')] [] rfl rfl] at h
  simp only [tabularRaw, tabularSampleLines, sampleLinesFrom, concatList, joinSep,
    strLen_append, hs, List.take_nil, List.length_nil] at h
  omega

/-- C6 (amended): the `raw` view is bounded only outside the tabular branch:
for every input not containing both `rows` and `columns` keys, `raw` has
length at most 2000 (2000 on the generic-data branch, 1000 on the opaque
branch); no uniform bound exists over tabular inputs. -/
theorem format_raw_bounded_nontabular (results : PyDict)
    (h : ((dictGet results "rows").isSome && (dictGet results "columns").isSome) = false) :
    (format_retrieval_results results).raw.length ≤ 2000 := by
  have hnc : ¬(((dictGet results "rows").isSome && (dictGet results "columns").isSome) = true) := by
    simp [h]
  rw [format_retrieval_results, format_body, if_neg hnc]
  by_cases hd : (dictGet results "data").isSome = true
  · obtain ⟨d, hdd⟩ := Option.isSome_iff_exists.mp hd
    rw [if_pos hd, hdd, Option.some_bind]
    show (strTake (pyStr d) 2000).length ≤ 2000
    rw [strTake_length]
    exact Nat.min_le_left _ _
  · rw [if_neg hd]
    show (strTake (pyStr (PyVal.dict results)) 1000).length ≤ 2000
    rw [strTake_length]
    have hmin := Nat.min_le_left 1000 (pyStr (PyVal.dict results)).length
    omega

theorem format_raw_bounded_nontabular_witness :
    (((dictGet [("data", PyVal.str "x")] "rows").isSome &&
        (dictGet [("data", PyVal.str "x")] "columns").isSome) = false) ∧
    (format_retrieval_results [("data", PyVal.str "x")]).raw.length ≤ 2000 :=
  ⟨rfl, format_raw_bounded_nontabular [("data", PyVal.str "x")] rfl⟩

/-- C7: for every input matching neither the tabular shape nor the generic
shape, the result is `structured = None` with `raw` = the string rendering
of the whole input truncated to at most 1000 characters. -/
theorem format_unmatched_shape (results : PyDict)
    (h1 : ((dictGet results "rows").isSome && (dictGet results "columns").isSome) = false)
    (h2 : (dictGet results "data").isSome = false) :
    format_retrieval_results results =
      ⟨Option.none, strTake (pyStr (PyVal.dict results)) 1000⟩ ∧
    (format_retrieval_results results).raw.length ≤ 1000 := by
  have hnc : ¬(((dictGet results "rows").isSome && (dictGet results "columns").isSome) = true) := by
    simp [h1]
  have hnd : ¬((dictGet results "data").isSome = true) := by simp [h2]
  have hf : format_retrieval_results results =
      ⟨Option.none, strTake (pyStr (PyVal.dict results)) 1000⟩ := by
    rw [format_retrieval_results, format_body, if_neg hnc, if_neg hnd]
  refine ⟨hf, ?_⟩
  rw [hf]
  show (strTake (pyStr (PyVal.dict results)) 1000).length ≤ 1000
  rw [strTake_length]
  exact Nat.min_le_left _ _

theorem format_unmatched_shape_witness :
    (((dictGet [("foo", PyVal.int 1)] "rows").isSome &&
        (dictGet [("foo", PyVal.int 1)] "columns").isSome) = false) ∧
    ((dictGet [("foo", PyVal.int 1)] "data").isSome = false) ∧
    format_retrieval_results [("foo", PyVal.int 1)] =
      ⟨Option.none, strTake (pyStr (PyVal.dict [("foo", PyVal.int 1)])) 1000⟩ :=
  ⟨rfl, rfl, (format_unmatched_shape [("foo", PyVal.int 1)] rfl rfl).1⟩

/-- C9: `format_retrieval_results` is deterministic and stateless — the
result, both its structured record and its raw string, is a function of the
input alone, so two invocations on identical input yield identical
output. -/
theorem format_deterministic (r1 r2 : PyDict) (h : r1 = r2) :
    format_retrieval_results r1 = format_retrieval_results r2 ∧
    (format_retrieval_results r1).structured = (format_retrieval_results r2).structured ∧
    (format_retrieval_results r1).raw = (format_retrieval_results r2).raw := by
  subst h
  exact ⟨rfl, rfl, rfl⟩

theorem format_deterministic_witness :
    format_retrieval_results [("data", PyVal.int 1)] =
      format_retrieval_results [("data", PyVal.int 1)] ∧
    (format_retrieval_results [("data", PyVal.int 1)]).structured =
      (format_retrieval_results [("data", PyVal.int 1)]).structured ∧
    (format_retrieval_results [("data", PyVal.int 1)]).raw =
      (format_retrieval_results [("data", PyVal.int 1)]).raw :=
  format_deterministic [("data", PyVal.int 1)] [("data", PyVal.int 1)] rfl
